import Mathlib

/- Verification development for the dialogue-seq2seq model core
   (seq2seq/Models.py). Tensors are embedded as nested lists of real
   numbers (machine floats are modelled as reals); token and position
   sequences are lists of lists of naturals. The EncoderLayer,
   DecoderLayer and AttentionLayer building blocks and the Constants
   module live in files that are not among the given sources; they are
   modelled from the spec where needed and marked as such. -/

namespace Constants

/-- Modelled from the spec: the Constants module is not among the given
sources; the spec fixes the padding id by "PAD=0 conventionally". -/
def PAD : ℕ := 0

end Constants

/-- A 2-D tensor (matrix) of reals. -/
abbrev Mat := List (List ℝ)

/-- A 3-D tensor of reals (a batch of matrices). -/
abbrev Ten3 := List (List (List ℝ))

/-- A boolean attention-mask tensor of shape batch x len_q x len_k. -/
abbrev Mask3 := List (List (List Bool))

/-- Dot product of two real vectors. -/
def dotL (a b : List ℝ) : ℝ := (List.zipWith (fun x y => x * y) a b).sum

/-- Three-way zipWith on lists. -/
def zipWith3L (f : α → β → γ → δ) : List α → List β → List γ → List δ
  | a :: as, b :: bs, c :: cs => f a b c :: zipWith3L f as bs cs
  | _, _, _ => []

/-- Pointwise addition of two 3-D tensors (broadcast-free case). -/
def add3 (x y : Ten3) : Ten3 :=
  List.zipWith (List.zipWith (List.zipWith (fun a b => a + b))) x y

/-- Pointwise multiplication of two 3-D tensors (broadcast-free case). -/
def mul3 (x y : Ten3) : Ten3 :=
  List.zipWith (List.zipWith (List.zipWith (fun a b => a * b))) x y

/-- The outer two dimensions of a 3-D tensor: the list of row counts of
each batch element (for a well-shaped [B, L, D] tensor this is L
repeated B times). -/
def dims2 (x : Ten3) : List ℕ := x.map List.length

/-- Entry access in a 3-D tensor with a default. -/
def get3 (m : List (List (List α))) (b i j : ℕ) (d : α) : α :=
  ((m.getD b []).getD i []).getD j d

/-- get_non_pad_mask: seq.ne(PAD).type(float).unsqueeze(-1), a float
mask of shape [batch, len, 1]. -/
def get_non_pad_mask (seq : List (List ℕ)) : Ten3 :=
  seq.map (fun row => row.map (fun t => [if t = Constants.PAD then (0 : ℝ) else 1]))

/-- get_attn_key_pad_mask: padding_mask = seq_k.eq(PAD) expanded over
the query length (seq_q.size(1)), giving a [batch, len_q, len_k]
boolean tensor. -/
def get_attn_key_pad_mask (seq_k seq_q : List (List ℕ)) : Mask3 :=
  let len_q := (seq_q.headD []).length
  seq_k.map (fun row_k =>
    List.replicate len_q (row_k.map (fun t => decide (t = Constants.PAD))))

/-- get_subsequent_mask: torch.triu(ones(len_s, len_s), diagonal=1)
expanded over the batch; the strictly-upper-triangular entries (key
index strictly greater than query index) are 1. The uint8 table holds
only zeros and ones and is represented by booleans. -/
def get_subsequent_mask (seq : List (List ℕ)) : Mask3 :=
  let sz_b := seq.length
  let len_s := (seq.headD []).length
  List.replicate sz_b
    ((List.range len_s).map (fun i =>
      (List.range len_s).map (fun j => decide (i < j))))

/-- The uint8 value of a boolean mask entry. -/
def byteOfBool (b : Bool) : ℕ := if b then 1 else 0

/-- The decoder self-attention mask from Decoder.forward:
(slf_attn_mask_keypad + slf_attn_mask_subseq).gt(0), the byte masks
added pointwise and compared with zero. -/
def decoder_slf_attn_mask (tgt_seq : List (List ℕ)) : Mask3 :=
  let slf_attn_mask_subseq := get_subsequent_mask tgt_seq
  let slf_attn_mask_keypad := get_attn_key_pad_mask tgt_seq tgt_seq
  List.zipWith (List.zipWith (List.zipWith
    (fun a b => decide (0 < byteOfBool a + byteOfBool b))))
    slf_attn_mask_keypad slf_attn_mask_subseq

/-- The sinusoid table of get_sinusoid_encoding_table before the
padding-row overwrite: the stacked per-position angle vectors with the
two numpy slice assignments (sin on even columns, cos on odd columns)
expressed per entry by the parity of the column index. -/
noncomputable def sinusoid_table_base (n_position d_hid : ℕ) : Mat :=
  let cal_angle : ℕ → ℕ → ℝ := fun position hid_idx =>
    (position : ℝ) / (10000 : ℝ) ^ (((2 * (hid_idx / 2) : ℕ) : ℝ) / (d_hid : ℝ))
  (List.range n_position).map (fun pos_i =>
    (List.range d_hid).map (fun hid_j =>
      if hid_j % 2 = 0 then Real.sin (cal_angle pos_i hid_j)
      else Real.cos (cal_angle pos_i hid_j)))

/-- get_sinusoid_encoding_table: the base table, with the row at the
padding index overwritten by zeros when a padding index is supplied.
numpy raises IndexError when the stacked angle array is 1-D, which
happens exactly when n_position = 0, and when the padding row index is
outside the table; both are modelled as errors. -/
noncomputable def get_sinusoid_encoding_table
    (n_position d_hid : ℕ) (padding_idx : Option ℕ) : Except String Mat :=
  if n_position = 0 then .error "IndexError" else
  let sinusoid_table := sinusoid_table_base n_position d_hid
  match padding_idx with
  | none => .ok sinusoid_table
  | some p =>
      if p < n_position then .ok (sinusoid_table.set p (List.replicate d_hid 0))
      else .error "IndexError"

/-- Result of numpy.load on an embedding file, abstracted to what
decides the construction outcome: an ndarray with a shape and an
element-kind flag, or a non-ndarray object (such as an npz archive).
Modelled from the spec: the loaded contents must be a 2-D numeric
array. -/
inductive NpValue where
  | ndarray (shape : List ℕ) (numeric : Bool)
  | notNdarray

/-- A torch float tensor abstracted to its shape. -/
structure FloatTensorShape where
  shape : List ℕ

/-- get_pretrained_emb: np.load followed by the isinstance assert
("Embedding table must be Numpy binary") and the torch.FloatTensor
conversion, which is a fatal type error on non-numeric element kinds
(modelled from the spec). -/
def get_pretrained_emb (contents : NpValue) : Except String FloatTensorShape :=
  match contents with
  | .notNdarray => .error "Embedding table must be Numpy binary"
  | .ndarray shape numeric =>
      if numeric then .ok { shape := shape } else .error "TypeError"

/-- nn.Embedding.from_pretrained. Modelled from the spec: a pretrained
embedding matrix must be 2-D (the library asserts
embeddings.dim() == 2); any other rank is a fatal construction
error. -/
def embeddingFromPretrained (t : FloatTensorShape) : Except String FloatTensorShape :=
  if t.shape.length = 2 then .ok t
  else .error "Embeddings parameter is expected to be 2-dimensional"

/-- The embedding-related members produced by Encoder.__init__ or
Decoder.__init__. -/
structure EmbInit where
  word_emb : FloatTensorShape
  position_enc : Mat

/-- Encoder.__init__ restricted to its fallible members: with a
non-empty emb_file the source embedding comes from the loaded file via
get_pretrained_emb and nn.Embedding.from_pretrained, otherwise a fresh
[n_src_vocab, d_word_vec] embedding is created; the position table is
built by get_sinusoid_encoding_table with n_position = len_max_seq + 1
and padding index 0. The layer stack carries no failure and is left
out. -/
noncomputable def Encoder.init (n_src_vocab len_max_seq d_word_vec : ℕ)
    (emb_file : Option NpValue) : Except String EmbInit := do
  let n_position := len_max_seq + 1
  let src_word_emb ← match emb_file with
    | some contents => do
        let t ← get_pretrained_emb contents
        embeddingFromPretrained t
    | none => pure { shape := [n_src_vocab, d_word_vec] }
  let position_enc ← get_sinusoid_encoding_table n_position d_word_vec (some 0)
  pure { word_emb := src_word_emb, position_enc := position_enc }

/-- Decoder.__init__ restricted to its fallible members; textually the
same construction as Encoder.__init__ with the target vocabulary. -/
noncomputable def Decoder.init (n_tgt_vocab len_max_seq d_word_vec : ℕ)
    (emb_file : Option NpValue) : Except String EmbInit := do
  let n_position := len_max_seq + 1
  let tgt_word_emb ← match emb_file with
    | some contents => do
        let t ← get_pretrained_emb contents
        embeddingFromPretrained t
    | none => pure { shape := [n_tgt_vocab, d_word_vec] }
  let position_enc ← get_sinusoid_encoding_table n_position d_word_vec (some 0)
  pure { word_emb := tgt_word_emb, position_enc := position_enc }

/-- An EncoderLayer application (seq2seq/Layers.py is not among the
given sources): an abstract function of
(enc_input, non_pad_mask, slf_attn_mask). -/
abbrev EncLayerFn := Ten3 → Ten3 → Mask3 → Ten3

/-- A DecoderLayer application: an abstract function of
(dec_input, enc_output, non_pad_mask, slf_attn_mask,
dec_enc_attn_mask). -/
abbrev DecLayerFn := Ten3 → Ten3 → Ten3 → Mask3 → Mask3 → Ten3

/-- A layer preserves the batch and length dimensions of its first
argument. Modelled from the spec: encoder and decoder layers produce a
representation of the same [batch, len, d_model] shape as their
input. -/
def PreservesDims2 (f : Ten3 → Ten3) : Prop :=
  ∀ x, dims2 (f x) = dims2 x

/-- nn.Embedding lookup: a [vocab, d] weight table applied to a
[batch, len] id sequence gives a [batch, len, d] tensor. -/
def embLookup (weight : Mat) (seq : List (List ℕ)) : Ten3 :=
  seq.map (fun row => row.map (fun t => weight.getD t []))

/-- The Encoder module: embedding tables plus the layer stack. -/
structure Encoder where
  src_word_emb : Mat
  position_enc : Mat
  layer_stack : List EncLayerFn

/-- Encoder.forward: masks from the source sequence, token embedding
plus position embedding, then the layer stack folded left to right. -/
def Encoder.forward (self : Encoder) (src_seq src_pos : List (List ℕ)) : Ten3 :=
  let slf_attn_mask := get_attn_key_pad_mask src_seq src_seq
  let non_pad_mask := get_non_pad_mask src_seq
  let enc_output0 := add3 (embLookup self.src_word_emb src_seq)
    (embLookup self.position_enc src_pos)
  self.layer_stack.foldl
    (fun acc enc_layer => enc_layer acc non_pad_mask slf_attn_mask) enc_output0

/-- The Decoder module: embedding tables plus the layer stack. -/
structure Decoder where
  tgt_word_emb : Mat
  position_enc : Mat
  layer_stack : List DecLayerFn

/-- Decoder.forward: non-pad mask, combined self-attention mask, the
encoder-side key-padding mask, token plus position embedding, then the
layer stack folded left to right. -/
def Decoder.forward (self : Decoder) (tgt_seq tgt_pos src_seq : List (List ℕ))
    (enc_output : Ten3) : Ten3 :=
  let non_pad_mask := get_non_pad_mask tgt_seq
  let slf_attn_mask := decoder_slf_attn_mask tgt_seq
  let dec_enc_attn_mask := get_attn_key_pad_mask src_seq tgt_seq
  let dec_output0 := add3 (embLookup self.tgt_word_emb tgt_seq)
    (embLookup self.position_enc tgt_pos)
  self.layer_stack.foldl
    (fun acc dec_layer =>
      dec_layer acc enc_output non_pad_mask slf_attn_mask dec_enc_attn_mask)
    dec_output0

/-- The logistic sigmoid used by the LSTM cell gates. -/
noncomputable def sigmoidR (x : ℝ) : ℝ := 1 / (1 + Real.exp (-x))

/-- The parameters of nn.LSTMCell(d_model, d_hidden): the input and
hidden weight matrices and the two bias vectors, split into the four
gate chunks i, f, g, o. -/
structure LSTMCellParams where
  w_ii : Mat
  w_if : Mat
  w_ig : Mat
  w_io : Mat
  w_hi : Mat
  w_hf : Mat
  w_hg : Mat
  w_ho : Mat
  b_ii : List ℝ
  b_if : List ℝ
  b_ig : List ℝ
  b_io : List ℝ
  b_hi : List ℝ
  b_hf : List ℝ
  b_hg : List ℝ
  b_ho : List ℝ

/-- One nn.LSTMCell step on a single batch element (modelled from the
spec, the cell being a library primitive): gates
i = sigmoid(W x + b + W h + b), f and o likewise, g through tanh;
the new cell state is f * c + i * g and the new hidden state is
o * tanh(c_new). -/
noncomputable def lstmCell (p : LSTMCellParams) (x h c : List ℝ) :
    List ℝ × List ℝ :=
  let hidden := p.w_ii.length
  let pre := fun (wi wh : Mat) (bi bh : List ℝ) (k : ℕ) =>
    dotL (wi.getD k []) x + bi.getD k 0 + dotL (wh.getD k []) h + bh.getD k 0
  let gi := fun k => sigmoidR (pre p.w_ii p.w_hi p.b_ii p.b_hi k)
  let gf := fun k => sigmoidR (pre p.w_if p.w_hf p.b_if p.b_hf k)
  let gg := fun k => Real.tanh (pre p.w_ig p.w_hg p.b_ig p.b_hg k)
  let go := fun k => sigmoidR (pre p.w_io p.w_ho p.b_io p.b_ho k)
  let cNew := (List.range hidden).map (fun k => gf k * c.getD k 0 + gi k * gg k)
  let hNew := (List.range hidden).map (fun k => go k * Real.tanh (cNew.getD k 0))
  (hNew, cNew)

/-- Softmax over a list of scores. -/
noncomputable def softmaxL (s : List ℝ) : List ℝ :=
  let es := s.map Real.exp
  es.map (fun e => e / es.sum)

/-- Modelled from the spec: AttentionLayer (seq2seq/Layers.py, not
among the given sources). The spec says only: use the updated hidden
vector as an attention query over the (masked) encoder output sequence
to produce a session-aware output sequence plus an
attention-distribution weight tensor. Modelled as: project the query
with a weight matrix, score each encoder position by dot product with
the projected query, softmax the scores, and reweight each encoder
position by its score. -/
noncomputable def attentionLayer (w : Mat) (enc : List (List ℝ))
    (query : List ℝ) : List (List ℝ) × List ℝ :=
  let q := w.map (fun wrow => dotL wrow query)
  let scores := enc.map (fun key => dotL key q)
  let distr := softmaxL scores
  (List.zipWith (fun a key => key.map (fun v => a * v)) distr enc, distr)

/-- Modelled from the spec: nn.LayerNorm(d_model) with the default
PyTorch epsilon 1e-5: normalize a feature vector to zero mean and unit
variance and apply the learned affine transform. -/
noncomputable def layerNorm (gamma beta v : List ℝ) : List ℝ :=
  let n : ℝ := v.length
  let mean := v.sum / n
  let var := (v.map (fun x => (x - mean) ^ 2)).sum / n
  (List.range v.length).map (fun k =>
    (v.getD k 0 - mean) / Real.sqrt (var + 1 / 100000) * gamma.getD k 0
      + beta.getD k 0)

/-- The (hidden, cell) pair held in the attributes h and c of a Session
instance. -/
structure SessionState where
  h : Mat
  c : Mat

/-- The Session module: the hidden size and the parameters of its
LSTM cell, attention layer and layer norm. -/
structure Session where
  d_hidden : ℕ
  memory : LSTMCellParams
  attn_w : Mat
  ln_gamma : List ℝ
  ln_beta : List ℝ

/-- Session.zero_lstm_state: h and c are set to zero tensors of shape
[batch_size, d_hidden] (the device argument only selects where the
tensor lives and has no numeric content). -/
def Session.zero_lstm_state (self : Session) (batch_size : ℕ) : SessionState :=
  { h := List.replicate batch_size (List.replicate self.d_hidden 0)
  , c := List.replicate batch_size (List.replicate self.d_hidden 0) }

/-- What a call of Session.forward produces: the returned ses_output,
the updated (h, c) attributes, and the value of the enc_output argument
after the call (the line enc_output *= non_pad_mask updates the
tensor held by the caller in place). -/
structure SessionResult where
  ses_output : Ten3
  state : SessionState
  enc_output : Ten3

/-- The first step of Session.forward: the non-pad mask expanded over
the last dimension of enc_output (non_pad_mask.repeat(1, 1,
enc_output.size(-1))) multiplied pointwise into enc_output. Because the
multiplication is the in-place enc_output *= non_pad_mask, this is also
the value of the enc_output tensor of the caller after the call. -/
noncomputable def Session.maskedEncOutput (self : Session) (enc_output : Ten3)
    (src_seq : List (List ℕ)) : Ten3 :=
  let d_last := ((enc_output.headD []).headD []).length
  let non_pad_mask :=
    (get_non_pad_mask src_seq).map (fun row =>
      row.map (fun v => List.replicate d_last (v.headD 0)))
  mul3 enc_output non_pad_mask

/-- The feature extraction of Session.forward: the masked encoder
output max-pooled over the time axis (torch.max(features, dim=1)),
one feature vector per batch element. torch.max over an empty time
axis is a fatal error; it is modelled as an empty feature vector. -/
noncomputable def Session.pooledFeatures (self : Session) (enc_output : Ten3)
    (src_seq : List (List ℕ)) : Mat :=
  (self.maskedEncOutput enc_output src_seq).map (fun mat =>
    match mat with
    | [] => []
    | r :: rs => rs.foldl (List.zipWith max) r)

/-- The state update of Session.forward: self.h, self.c =
self.memory(features, (self.h, self.c)), the LSTM cell applied batch
element by batch element to the pooled features and the stored
state. -/
noncomputable def Session.updatedState (self : Session) (enc_output : Ten3)
    (src_seq : List (List ℕ)) (st : SessionState) : SessionState :=
  let hc := zipWith3L (fun x hrow crow => lstmCell self.memory x hrow crow)
    (self.pooledFeatures enc_output src_seq) st.h st.c
  { h := hc.map Prod.fst, c := hc.map Prod.snd }

/-- Session.forward: expand the non-pad mask over the last dimension
and multiply it into enc_output in place; max-pool the masked output
over the time axis into one feature vector per batch element; step the
LSTM cell with the stored (h, c); attend over the masked output with
the new hidden vector as query; add the residual and layer-normalize. -/
noncomputable def Session.forward (self : Session) (enc_output : Ten3)
    (src_seq : List (List ℕ)) (st : SessionState) : SessionResult :=
  let enc_output1 := self.maskedEncOutput enc_output src_seq
  let newState := self.updatedState enc_output src_seq st
  let ses0 := List.zipWith
    (fun mat q => (attentionLayer self.attn_w mat q).fst) enc_output1 newState.h
  let ses_output := List.zipWith (fun m1 m2 =>
    List.zipWith (fun v1 v2 =>
      layerNorm self.ln_gamma self.ln_beta (List.zipWith (fun a b => a + b) v1 v2))
      m1 m2) ses0 enc_output1
  { ses_output := ses_output
  , state := newState
  , enc_output := enc_output1 }

/-- The value of the h and c attributes of a freshly constructed
Session: __init__ assigns neither, so no state exists yet (Python
instance-attribute semantics modelled with Option). -/
def Session.initState : Option SessionState := none

/-- Session.forward as callable on an instance whose h and c attributes
may not exist yet: reading self.h on a module that never ran
zero_lstm_state raises AttributeError. -/
noncomputable def Session.forwardChecked (self : Session) (enc_output : Ten3)
    (src_seq : List (List ℕ)) (st : Option SessionState) :
    Except String SessionResult :=
  match st with
  | none => .error "AttributeError"
  | some s => .ok (self.forward enc_output src_seq s)

/-- nn.Linear(d_model, n_tgt_vocab, bias=False) applied to one feature
vector: entry j of the output is the dot product of row j of the weight
with the input. -/
def linearNoBias (weight : Mat) (v : List ℝ) : List ℝ :=
  weight.map (fun wrow => dotL wrow v)

/-- The Seq2Seq module for the forward pass: the three submodules, the
output projection weight, the logit scale and the MMI factor. -/
structure Seq2Seq where
  encoder : Encoder
  session : Session
  decoder : Decoder
  tgt_word_prj : Mat
  x_logit_scale : ℝ
  mmi_factor : ℝ

/-- What Seq2Seq.forward produces: the returned flattened logits plus
the intermediate tensors the code computes on the way (the stored
encoder output after the session call mutated it, the session output,
the encoder-side tensor handed to the decoder, the decoder output), and
the updated session state. -/
structure ForwardResult where
  enc_output : Ten3
  ses_output : Ten3
  dec_enc_input : Ten3
  dec_output : Ten3
  seq_logit : Mat
  state : SessionState

/-- Seq2Seq.forward: drop the last column of tgt_seq and tgt_pos; run
the encoder and the session (the session call updates its state and the
enc_output tensor in place); with mmi_factor > 0 concatenate the
session output with the encoder output along the batch axis and repeat
the target, position and source sequences twice along the batch axis,
otherwise keep the single batch; run the decoder once on the chosen
batch; project with tgt_word_prj, scale by x_logit_scale and flatten
the leading batch and time axes (view(-1, size(2))). -/
noncomputable def Seq2Seq.forward (self : Seq2Seq)
    (src_seq src_pos tgt_seq0 tgt_pos0 : List (List ℕ))
    (st : SessionState) : ForwardResult :=
  let tgt_seq := tgt_seq0.map List.dropLast
  let tgt_pos := tgt_pos0.map List.dropLast
  let enc_output0 := self.encoder.forward src_seq src_pos
  let sres := self.session.forward enc_output0 src_seq st
  let ses_output := sres.ses_output
  let enc_output := sres.enc_output
  let decArgs :=
    if 0 < self.mmi_factor then
      (tgt_seq ++ tgt_seq, tgt_pos ++ tgt_pos, src_seq ++ src_seq,
        ses_output ++ enc_output)
    else
      (tgt_seq, tgt_pos, src_seq, ses_output)
  let dec_output :=
    self.decoder.forward decArgs.1 decArgs.2.1 decArgs.2.2.1 decArgs.2.2.2
  let seq_logit3 := dec_output.map (fun mat => mat.map (fun v =>
    (linearNoBias self.tgt_word_prj v).map (fun z => z * self.x_logit_scale)))
  { enc_output := enc_output
  , ses_output := ses_output
  , dec_enc_input := decArgs.2.2.2
  , dec_output := dec_output
  , seq_logit := seq_logit3.flatten
  , state := sres.state }

/-- A tensor-valued module attribute holding a reference into shared
storage: Python and PyTorch tensors are heap references, and assigning
one module weight to another (as the weight-sharing branches of
Seq2Seq.__init__ do) aliases the very same tensor object. -/
structure TensorRef where
  id : ℕ

/-- A heap of tensor payloads addressed by reference id. -/
abbrev Store := ℕ → Mat

/-- Writing a tensor through a reference. -/
def storeWrite (s : Store) (r : TensorRef) (v : Mat) : Store :=
  fun j => if j = r.id then v else s j

/-- Reading a tensor through a reference. -/
def storeRead (s : Store) (r : TensorRef) : Mat := s r.id

/-- The weight references held by a constructed Seq2Seq instance,
together with the logit scale. -/
structure Seq2SeqRefs where
  src_word_emb_weight : TensorRef
  tgt_word_emb_weight : TensorRef
  tgt_word_prj_weight : TensorRef
  x_logit_scale : ℝ

/-- Seq2Seq.__init__ restricted to the three weight tensors and the
logit scale. Construction first creates three distinct tensors (ids 0,
1, 2 for the encoder source embedding, the decoder target embedding and
the output projection); the assert d_model == d_word_vec fails before
any sharing; with tgt_emb_prj_weight_sharing the projection weight
becomes an alias of the target embedding and x_logit_scale is
d_model ** -0.5, else the scale is 1; with emb_src_tgt_weight_sharing
the assert n_src_vocab == n_tgt_vocab fails construction on unequal
vocabularies, else the source embedding weight becomes an alias of the
target embedding weight. -/
noncomputable def Seq2Seq.initRefs
    (n_src_vocab n_tgt_vocab d_word_vec d_model : ℕ)
    (tgt_emb_prj_weight_sharing emb_src_tgt_weight_sharing : Bool) :
    Except String Seq2SeqRefs :=
  let srcRef : TensorRef := { id := 0 }
  let tgtRef : TensorRef := { id := 1 }
  let prjRef0 : TensorRef := { id := 2 }
  if d_model ≠ d_word_vec then
    .error "the dimensions of all module outputs shall be the same"
  else
    let prjRef := if tgt_emb_prj_weight_sharing then tgtRef else prjRef0
    let x_logit_scale : ℝ :=
      if tgt_emb_prj_weight_sharing then (d_model : ℝ) ^ (-(1 / 2) : ℝ) else 1
    if emb_src_tgt_weight_sharing then
      if n_src_vocab = n_tgt_vocab then
        .ok { src_word_emb_weight := tgtRef, tgt_word_emb_weight := tgtRef
            , tgt_word_prj_weight := prjRef, x_logit_scale := x_logit_scale }
      else
        .error "the vocabulary size of src and tgt shall be the same"
    else
      .ok { src_word_emb_weight := srcRef, tgt_word_emb_weight := tgtRef
          , tgt_word_prj_weight := prjRef, x_logit_scale := x_logit_scale }

/-- A 1-by-1 all-zero LSTM cell parameterization (hidden size 1, input
size 1): learned parameters are arbitrary real values, and zero is one
of them. -/
def zeroLSTMCellParams : LSTMCellParams :=
  { w_ii := [[0]], w_if := [[0]], w_ig := [[0]], w_io := [[0]]
  , w_hi := [[0]], w_hf := [[0]], w_hg := [[0]], w_ho := [[0]]
  , b_ii := [0], b_if := [0], b_ig := [0], b_io := [0]
  , b_hi := [0], b_hf := [0], b_hg := [0], b_ho := [0] }

/-- A concrete Session instance with d_model = d_hidden = 1 and all-zero
LSTM parameters. -/
def tinySession : Session :=
  { d_hidden := 1, memory := zeroLSTMCellParams, attn_w := [[0]]
  , ln_gamma := [1], ln_beta := [0] }

/-- A concrete Encoder with vocabulary size 6, d_model = 512 and one
layer that returns its input unchanged (a shape-preserving layer). -/
noncomputable def bigEncoder : Encoder :=
  { src_word_emb := List.replicate 6 (List.replicate 512 0)
  , position_enc := List.replicate 6 (List.replicate 512 0)
  , layer_stack := [fun x _ _ => x] }

/-- A concrete Decoder with vocabulary size 6, d_model = 512 and one
layer that returns its input unchanged (a shape-preserving layer). -/
noncomputable def bigDecoder : Decoder :=
  { tgt_word_emb := List.replicate 6 (List.replicate 512 0)
  , position_enc := List.replicate 6 (List.replicate 512 0)
  , layer_stack := [fun x _ _ _ _ => x] }

/-- A concrete Seq2Seq instance with d_model = 512, vocabulary size 3
for the projection, and mmi_factor = 0 (the MLE setting). -/
noncomputable def mleSeq2Seq : Seq2Seq :=
  { encoder := bigEncoder, session := tinySession, decoder := bigDecoder
  , tgt_word_prj := List.replicate 3 (List.replicate 512 0)
  , x_logit_scale := 1, mmi_factor := 0 }

/-- The same concrete Seq2Seq instance with mmi_factor = 1. -/
noncomputable def mmiSeq2Seq : Seq2Seq :=
  { encoder := bigEncoder, session := tinySession, decoder := bigDecoder
  , tgt_word_prj := List.replicate 3 (List.replicate 512 0)
  , x_logit_scale := 1, mmi_factor := 1 }

theorem getD_zipWithL {α β γ : Type} (f : α → β → γ) (a : List α) (b : List β)
    (i : ℕ) (da : α) (db : β) (d : γ) (ha : i < a.length) (hb : i < b.length) :
    (List.zipWith f a b).getD i d = f (a.getD i da) (b.getD i db) := by
  rw [List.getD_eq_getElem _ _ (by rw [List.length_zipWith]; omega),
    List.getD_eq_getElem _ _ ha, List.getD_eq_getElem _ _ hb,
    List.getElem_zipWith]

theorem getD_mapL {α β : Type} (f : α → β) (l : List α) (i : ℕ) (da : α)
    (d : β) (h : i < l.length) : (l.map f).getD i d = f (l.getD i da) := by
  rw [List.getD_eq_getElem _ _ (by simpa), List.getD_eq_getElem _ _ h,
    List.getElem_map]

theorem getD_replicateL {α : Type} (x : α) (n i : ℕ) (d : α) (h : i < n) :
    (List.replicate n x).getD i d = x := by
  rw [List.getD_eq_getElem _ _ (by simpa), List.getElem_replicate]

theorem getD_rangeL (n i d : ℕ) (h : i < n) : (List.range n).getD i d = i := by
  rw [List.getD_eq_getElem _ _ (by simpa), List.getElem_range]

/-- C3: after Seq2Seq construction with target-embedding/projection
tying enabled, the output projection weight is the very same tensor
reference as the decoder target embedding weight, so a write through
either is read back through the other in every store, and the logit
scale equals d_model ^ (-1/2) (equivalently 1 / sqrt d_model); with
tying disabled the two references are distinct, a write through one
leaves the tensor behind the other unchanged, and the scale is 1. -/
theorem c3_tgt_prj_weight_tying (n_src_vocab n_tgt_vocab d_model : ℕ) :
    (∃ r, Seq2Seq.initRefs n_src_vocab n_tgt_vocab d_model d_model true false
        = .ok r ∧
      r.tgt_word_prj_weight = r.tgt_word_emb_weight ∧
      (∀ (s : Store) (v : Mat),
        storeRead (storeWrite s r.tgt_word_prj_weight v) r.tgt_word_emb_weight
          = v ∧
        storeRead (storeWrite s r.tgt_word_emb_weight v) r.tgt_word_prj_weight
          = v) ∧
      r.x_logit_scale = (d_model : ℝ) ^ (-(1 / 2) : ℝ) ∧
      r.x_logit_scale = (Real.sqrt d_model)⁻¹) ∧
    (∃ r, Seq2Seq.initRefs n_src_vocab n_tgt_vocab d_model d_model false false
        = .ok r ∧
      r.tgt_word_prj_weight ≠ r.tgt_word_emb_weight ∧
      (∀ (s : Store) (v : Mat),
        storeRead (storeWrite s r.tgt_word_prj_weight v) r.tgt_word_emb_weight
          = storeRead s r.tgt_word_emb_weight ∧
        storeRead (storeWrite s r.tgt_word_emb_weight v) r.tgt_word_prj_weight
          = storeRead s r.tgt_word_prj_weight) ∧
      r.x_logit_scale = 1) := by
  constructor
  · refine ⟨⟨⟨0⟩, ⟨1⟩, ⟨1⟩, (d_model : ℝ) ^ (-(1 / 2) : ℝ)⟩,
      by simp [Seq2Seq.initRefs], rfl, ?_, rfl, ?_⟩
    · intro s v
      constructor <;> simp [storeRead, storeWrite]
    · show (d_model : ℝ) ^ (-(1 / 2) : ℝ) = (Real.sqrt d_model)⁻¹
      rw [Real.rpow_neg (by positivity), ← Real.sqrt_eq_rpow]
  · refine ⟨⟨⟨0⟩, ⟨1⟩, ⟨2⟩, 1⟩,
      by simp [Seq2Seq.initRefs], by simp, ?_, rfl⟩
    intro s v
    constructor <;> simp [storeRead, storeWrite]

/-- C7: Seq2Seq construction with source/target embedding sharing
enabled fails with the vocabulary-size assert whenever the two
vocabulary sizes differ; with equal sizes it succeeds, and the encoder
source embedding weight is the very same tensor reference as the
decoder target embedding weight, so a write through it is read back
through the other. -/
theorem c7_src_tgt_emb_tying (n_src_vocab n_tgt_vocab d_model : ℕ)
    (tgt_emb_prj_weight_sharing : Bool) :
    (n_src_vocab ≠ n_tgt_vocab →
      Seq2Seq.initRefs n_src_vocab n_tgt_vocab d_model d_model
          tgt_emb_prj_weight_sharing true
        = .error "the vocabulary size of src and tgt shall be the same") ∧
    (n_src_vocab = n_tgt_vocab →
      ∃ r, Seq2Seq.initRefs n_src_vocab n_tgt_vocab d_model d_model
          tgt_emb_prj_weight_sharing true = .ok r ∧
        r.src_word_emb_weight = r.tgt_word_emb_weight ∧
        ∀ (s : Store) (v : Mat),
          storeRead (storeWrite s r.src_word_emb_weight v) r.tgt_word_emb_weight
            = v ∧
          storeRead (storeWrite s r.tgt_word_emb_weight v) r.src_word_emb_weight
            = v) := by
  constructor
  · intro hne
    simp [Seq2Seq.initRefs, hne]
  · intro heq
    refine ⟨⟨⟨1⟩, ⟨1⟩,
        if tgt_emb_prj_weight_sharing then ⟨1⟩ else ⟨2⟩,
        if tgt_emb_prj_weight_sharing then (d_model : ℝ) ^ (-(1 / 2) : ℝ)
        else 1⟩,
      by simp [Seq2Seq.initRefs, heq], rfl, ?_⟩
    intro s v
    constructor <;> simp [storeRead, storeWrite]

theorem c7_src_tgt_emb_tying_witness :
    (Seq2Seq.initRefs 2 3 4 4 true true
      = .error "the vocabulary size of src and tgt shall be the same") ∧
    (∃ r, Seq2Seq.initRefs 5 5 4 4 true true = .ok r ∧
      r.src_word_emb_weight = r.tgt_word_emb_weight ∧
      ∀ (s : Store) (v : Mat),
        storeRead (storeWrite s r.src_word_emb_weight v) r.tgt_word_emb_weight
          = v ∧
        storeRead (storeWrite s r.tgt_word_emb_weight v) r.src_word_emb_weight
          = v) :=
  ⟨(c7_src_tgt_emb_tying 2 3 4 true).1 (by decide),
    (c7_src_tgt_emb_tying 5 5 4 true).2 rfl⟩

/-- C10: on a freshly constructed Session no h and c attributes exist,
so the very first forward call fails; once zero_lstm_state has run, the
forward call goes through. -/
theorem c10_forward_requires_reset (self : Session) (enc_output : Ten3)
    (src_seq : List (List ℕ)) :
    Session.forwardChecked self enc_output src_seq Session.initState
      = .error "AttributeError" ∧
    ∀ batch_size : ℕ,
      Session.forwardChecked self enc_output src_seq
          (some (self.zero_lstm_state batch_size))
        = .ok (self.forward enc_output src_seq
            (self.zero_lstm_state batch_size)) := by
  exact ⟨rfl, fun _ => rfl⟩

/-- C6: constructing an Encoder or a Decoder with a pretrained
embedding file whose loaded contents are not a 2-D numeric array (any
other shape or type) is a fatal error: the construction returns no
instance. -/
theorem c6_malformed_emb_file_fatal (n_vocab len_max_seq d_word_vec : ℕ)
    (contents : NpValue)
    (hbad : ∀ r c : ℕ, contents ≠ .ndarray [r, c] true) :
    (∃ e, Encoder.init n_vocab len_max_seq d_word_vec (some contents)
        = .error e) ∧
    (∃ e, Decoder.init n_vocab len_max_seq d_word_vec (some contents)
        = .error e) := by
  cases contents with
  | notNdarray =>
      exact ⟨⟨"Embedding table must be Numpy binary", rfl⟩,
        ⟨"Embedding table must be Numpy binary", rfl⟩⟩
  | ndarray shape numeric =>
      cases numeric with
      | false =>
          exact ⟨⟨"TypeError", rfl⟩, ⟨"TypeError", rfl⟩⟩
      | true =>
          have hlen : shape.length ≠ 2 := by
            intro h2
            match shape, h2 with
            | [r, c], _ => exact hbad r c rfl
          refine ⟨⟨"Embeddings parameter is expected to be 2-dimensional", ?_⟩,
            ⟨"Embeddings parameter is expected to be 2-dimensional", ?_⟩⟩ <;>
            simp [Encoder.init, Decoder.init, get_pretrained_emb,
              embeddingFromPretrained, hlen, bind, Except.bind]

theorem c6_malformed_emb_file_fatal_witness :
    (∀ r c : ℕ, NpValue.ndarray [5] true ≠ .ndarray [r, c] true) ∧
    (∃ e, Encoder.init 10 4 8 (some (.ndarray [5] true)) = .error e) ∧
    (∃ e, Decoder.init 10 4 8 (some (.ndarray [5] true)) = .error e) :=
  have hbad : ∀ r c : ℕ, NpValue.ndarray [5] true ≠ .ndarray [r, c] true := by
    intro r c h
    simp at h
  ⟨hbad, (c6_malformed_emb_file_fatal 10 4 8 (.ndarray [5] true) hbad).1,
    (c6_malformed_emb_file_fatal 10 4 8 (.ndarray [5] true) hbad).2⟩

theorem byte_sum_pos_iff_or (a b : Bool) :
    decide (0 < byteOfBool a + byteOfBool b) = (a || b) := by
  cases a <;> cases b <;> rfl

/-- C9: for every target token sequence with uniform row length L, the
decoder self-attention mask entry at [b][i][j] is true exactly when the
key token tgt_seq[b][j] equals PAD or j > i; the byte sum of the
key-padding mask and the strict causal mask used by Decoder.forward is
positive precisely on the logical OR of the two, for every batch
size. -/
theorem c9_decoder_slf_attn_mask_or (tgt_seq : List (List ℕ)) (L b i j : ℕ)
    (hU : ∀ r ∈ tgt_seq, r.length = L)
    (hb : b < tgt_seq.length) (hi : i < L) (hj : j < L) :
    get3 (decoder_slf_attn_mask tgt_seq) b i j false
      = decide ((tgt_seq.getD b []).getD j 0 = Constants.PAD ∨ i < j) := by
  have hhead : (tgt_seq.headD []).length = L := by
    cases tgt_seq with
    | nil => simp at hb
    | cons r0 rs => exact hU r0 (by simp)
  have hrowmem : tgt_seq.getD b [] ∈ tgt_seq := by
    rw [List.getD_eq_getElem _ _ hb]
    exact List.getElem_mem _
  have hrowlen : (tgt_seq.getD b []).length = L := hU _ hrowmem
  unfold get3 decoder_slf_attn_mask get_attn_key_pad_mask get_subsequent_mask
  rw [getD_zipWithL _ _ _ b [] [] [] (by simpa using hb) (by simpa using hb),
    getD_mapL _ _ _ [] [] hb, getD_replicateL _ _ _ [] hb, hhead]
  rw [getD_zipWithL _ _ _ i [] [] [] (by simpa using hi)
      (by simpa using hi),
    getD_replicateL _ _ _ [] hi, getD_mapL _ _ _ 0 [] (by simpa using hi),
    getD_rangeL _ _ 0 hi]
  rw [getD_zipWithL _ _ _ j false false false
      (by simp only [List.length_map]; exact lt_of_lt_of_eq hj hrowlen.symm)
      (by simpa using hj),
    getD_mapL _ _ _ 0 false (lt_of_lt_of_eq hj hrowlen.symm),
    getD_mapL _ _ _ 0 false (by simpa using hj), getD_rangeL _ _ 0 hj]
  rw [byte_sum_pos_iff_or]
  simp

theorem c9_decoder_slf_attn_mask_or_witness :
    (∀ r ∈ [[3, 0], [5, 6]], r.length = 2) ∧
    get3 (decoder_slf_attn_mask [[3, 0], [5, 6]]) 0 0 1 false
      = decide ((([[3, 0], [5, 6]] : List (List ℕ)).getD 0 []).getD 1 0
          = Constants.PAD ∨ 0 < 1) :=
  ⟨by decide, c9_decoder_slf_attn_mask_or [[3, 0], [5, 6]] 2 0 0 1
    (by decide) (by decide) (by decide) (by decide)⟩

theorem getD_set_neL {α : Type} (l : List α) (p pos : ℕ) (v d : α)
    (h : p ≠ pos) : (l.set p v).getD pos d = l.getD pos d := by
  simp [List.getD, List.get?_eq_getElem?, List.getElem?_set_ne h]

theorem getD_set_selfL {α : Type} (l : List α) (p : ℕ) (v d : α)
    (h : p < l.length) : (l.set p v).getD p d = v := by
  rw [List.getD_eq_getElem _ _ (by simpa), List.getElem_set]
  simp

/-- C8 counterexample: the claim quantifies over every padding index,
but with n_position = 1 and padding index 1 the builder does not return
a table at all; the numpy row assignment at an out-of-range index is a
fatal IndexError. -/
theorem c8_sinusoid_table_counterexample :
    get_sinusoid_encoding_table 1 1 (some 1) = .error "IndexError" := by
  simp [get_sinusoid_encoding_table]

/-- C8 (amended): for every nonzero max position count n, hidden
dimension d and padding index within the table, the builder returns a
deterministic [n, d] table whose entry (pos, i) equals
sin(pos / 10000 ^ (2 * (i / 2) / d)) for even i and cos of the same
angle for odd i, except that the row at the padding index is exactly
the all-zero vector whenever a padding index is supplied; a zero
position count or an out-of-range padding index is a fatal indexing
error rather than a table. -/
theorem c8_sinusoid_table (n_position d_hid : ℕ) (padding_idx : Option ℕ)
    (hn : n_position ≠ 0) (hp : ∀ p ∈ padding_idx, p < n_position) :
    ∃ table, get_sinusoid_encoding_table n_position d_hid padding_idx
        = .ok table ∧
      table.length = n_position ∧
      (∀ row ∈ table, row.length = d_hid) ∧
      (∀ p, padding_idx = some p → table.getD p [] = List.replicate d_hid 0) ∧
      (∀ pos i, pos < n_position → i < d_hid → padding_idx ≠ some pos →
        (table.getD pos []).getD i 0 =
          if i % 2 = 0 then
            Real.sin ((pos : ℝ) /
              (10000 : ℝ) ^ (((2 * (i / 2) : ℕ) : ℝ) / (d_hid : ℝ)))
          else
            Real.cos ((pos : ℝ) /
              (10000 : ℝ) ^ (((2 * (i / 2) : ℕ) : ℝ) / (d_hid : ℝ)))) := by
  have hbase : ∀ pos i, pos < n_position → i < d_hid →
      ((sinusoid_table_base n_position d_hid).getD pos []).getD i 0
      = if i % 2 = 0 then
          Real.sin ((pos : ℝ) /
            (10000 : ℝ) ^ (((2 * (i / 2) : ℕ) : ℝ) / (d_hid : ℝ)))
        else
          Real.cos ((pos : ℝ) /
            (10000 : ℝ) ^ (((2 * (i / 2) : ℕ) : ℝ) / (d_hid : ℝ))) := by
    intro pos i hpos hi
    simp only [sinusoid_table_base]
    rw [getD_mapL _ _ _ 0 [] (by simpa using hpos), getD_rangeL _ _ 0 hpos]
    rw [getD_mapL _ _ _ 0 0 (by simpa using hi), getD_rangeL _ _ 0 hi]
  have hbaselen : ∀ row ∈ sinusoid_table_base n_position d_hid,
      row.length = d_hid := by
    intro row hrow
    simp only [sinusoid_table_base] at hrow
    obtain ⟨p0, hp0, rfl⟩ := List.mem_map.mp hrow
    simp
  have hbaselen2 : (sinusoid_table_base n_position d_hid).length = n_position := by
    simp [sinusoid_table_base]
  cases padding_idx with
  | none =>
      refine ⟨sinusoid_table_base n_position d_hid,
        by simp [get_sinusoid_encoding_table, hn], hbaselen2, hbaselen, ?_, ?_⟩
      · intro p hp'
        simp at hp'
      · intro pos i hpos hi _
        exact hbase pos i hpos hi
  | some p =>
      have hplt : p < n_position := hp p rfl
      refine ⟨(sinusoid_table_base n_position d_hid).set p
          (List.replicate d_hid 0),
        by simp [get_sinusoid_encoding_table, hn, hplt],
        by simpa using hbaselen2, ?_, ?_, ?_⟩
      · intro row hrow
        rcases List.mem_or_eq_of_mem_set hrow with hmem | hrep
        · exact hbaselen row hmem
        · simp [hrep]
      · intro q hq
        obtain rfl : p = q := by injection hq
        rw [getD_set_selfL _ _ _ _ (by rw [hbaselen2]; exact hplt)]
      · intro pos i hpos hi hne
        have hpne : p ≠ pos := by
          intro h
          exact hne (by rw [h])
        rw [getD_set_neL _ _ _ _ _ hpne]
        exact hbase pos i hpos hi

theorem c8_sinusoid_table_witness :
    ((2 : ℕ) ≠ 0) ∧ (∀ p ∈ (some 0 : Option ℕ), p < 2) ∧
    ∃ table, get_sinusoid_encoding_table 2 2 (some 0) = .ok table ∧
      table.length = 2 ∧
      (∀ row ∈ table, row.length = 2) ∧
      (∀ p, (some 0 : Option ℕ) = some p →
        table.getD p [] = List.replicate 2 0) ∧
      (∀ pos i, pos < 2 → i < 2 → (some 0 : Option ℕ) ≠ some pos →
        (table.getD pos []).getD i 0 =
          if i % 2 = 0 then
            Real.sin ((pos : ℝ) /
              (10000 : ℝ) ^ (((2 * (i / 2) : ℕ) : ℝ) / (2 : ℝ)))
          else
            Real.cos ((pos : ℝ) /
              (10000 : ℝ) ^ (((2 * (i / 2) : ℕ) : ℝ) / (2 : ℝ)))) :=
  ⟨by decide, by decide, c8_sinusoid_table 2 2 (some 0) (by decide) (by decide)⟩

/-- C4 counterexample: Session.forward does not leave its enc_output
argument unchanged. With source sequence [[1, 0]] (second position is
PAD) and encoder output [[[1], [2]]], the in-place
enc_output *= non_pad_mask leaves the argument holding a different
tensor (the padded position has been zeroed). -/
theorem c4_counterexample :
    (tinySession.forward [[[1], [2]]] [[1, 0]]
        (tinySession.zero_lstm_state 2)).enc_output ≠ [[[1], [2]]] := by
  have hval : (tinySession.forward [[[1], [2]]] [[1, 0]]
      (tinySession.zero_lstm_state 2)).enc_output
      = [[[(1 : ℝ) * 1], [(2 : ℝ) * 0]]] := rfl
  rw [hval]
  intro h
  simp at h

/-- C4 (amended): Session.forward updates its enc_output argument in
place: after the call the entry at a padded key position is zero and
the entry at a non-padded position is unchanged; consequently, in the
MMI branch of Seq2Seq.forward the second half of the doubled
encoder-side decoder input is the session-mutated encoder output
(the raw encoder output with its padded positions zeroed). -/
theorem c4_session_mutates_enc_output (self : Session)
    (enc_output : Ten3) (src_seq : List (List ℕ)) (st : SessionState)
    (b t k : ℕ)
    (hb : b < enc_output.length) (hbs : b < src_seq.length)
    (ht : t < (enc_output.getD b []).length)
    (hts : t < (src_seq.getD b []).length)
    (hk : k < ((enc_output.getD b []).getD t []).length)
    (hkd : k < ((enc_output.headD []).headD []).length) :
    get3 (self.forward enc_output src_seq st).enc_output b t k 0
      = (if (src_seq.getD b []).getD t 0 = Constants.PAD then 0
         else get3 enc_output b t k 0) ∧
    ∀ (model : Seq2Seq) (src_pos tgt_seq0 tgt_pos0 : List (List ℕ))
      (st2 : SessionState), 0 < model.mmi_factor →
      (model.forward src_seq src_pos tgt_seq0 tgt_pos0 st2).dec_enc_input
        = (model.forward src_seq src_pos tgt_seq0 tgt_pos0 st2).ses_output
          ++ (model.forward src_seq src_pos tgt_seq0 tgt_pos0 st2).enc_output := by
  constructor
  · show get3 (self.maskedEncOutput enc_output src_seq) b t k 0 = _
    unfold Session.maskedEncOutput get3 get_non_pad_mask mul3
    rw [getD_zipWithL _ _ _ b [] [] [] hb (by simpa using hbs)]
    rw [getD_mapL _ _ _ [] [] (by simpa using hbs)]
    rw [getD_mapL _ _ _ [] [] hbs]
    rw [getD_zipWithL _ _ _ t [] [] [] ht (by simpa using hts)]
    rw [getD_mapL _ _ _ [] [] (by simpa using hts)]
    rw [getD_mapL _ _ _ 0 [] hts]
    rw [getD_zipWithL _ _ _ k 0 0 0 hk (by simpa using hkd)]
    rw [getD_replicateL _ _ _ 0 hkd]
    by_cases hpad : (src_seq.getD b []).getD t 0 = Constants.PAD <;>
      simp [hpad]
  · intro model src_pos tgt_seq0 tgt_pos0 st2 hmmi
    simp only [Seq2Seq.forward]
    rw [if_pos hmmi]

theorem c4_session_mutates_enc_output_witness :
    get3 ((tinySession.forward [[[1], [2]]] [[1, 0]]
        (tinySession.zero_lstm_state 2)).enc_output) 0 1 0 0
      = (if (([[1, 0]] : List (List ℕ)).getD 0 []).getD 1 0 = Constants.PAD
         then 0 else get3 [[[(1 : ℝ)], [2]]] 0 1 0 0) ∧
    (0 : ℝ) < mmiSeq2Seq.mmi_factor ∧
    (mmiSeq2Seq.forward [[1, 0]] [[1, 2]] [[2, 3]] [[1, 2]]
        (tinySession.zero_lstm_state 1)).dec_enc_input
      = (mmiSeq2Seq.forward [[1, 0]] [[1, 2]] [[2, 3]] [[1, 2]]
          (tinySession.zero_lstm_state 1)).ses_output
        ++ (mmiSeq2Seq.forward [[1, 0]] [[1, 2]] [[2, 3]] [[1, 2]]
          (tinySession.zero_lstm_state 1)).enc_output := by
  have h := c4_session_mutates_enc_output tinySession [[[1], [2]]] [[1, 0]]
    (tinySession.zero_lstm_state 2) 0 1 0
    (by simp) (by simp) (by simp) (by simp) (by simp) (by simp)
  exact ⟨h.1, by norm_num [mmiSeq2Seq],
    h.2 mmiSeq2Seq [[1, 2]] [[2, 3]] [[1, 2]] (tinySession.zero_lstm_state 1)
      (by norm_num [mmiSeq2Seq])⟩

theorem tinySession_state_fixed :
    (tinySession.forward [[[1]]] [[1]] (tinySession.zero_lstm_state 1)).state
      = tinySession.zero_lstm_state 1 := by
  have h0 : (tinySession.forward [[[1]]] [[1]]
      (tinySession.zero_lstm_state 1)).state
      = tinySession.updatedState [[[1]]] [[1]]
        (tinySession.zero_lstm_state 1) := rfl
  rw [h0]
  simp [Session.updatedState, Session.pooledFeatures, Session.maskedEncOutput,
    Session.zero_lstm_state, lstmCell, zipWith3L, mul3, get_non_pad_mask,
    dotL, tinySession, zeroLSTMCellParams, Constants.PAD, Real.tanh_zero,
    List.replicate, List.range_succ, List.range_zero]

/-- C5 counterexample: the claim says two consecutive forward calls
without a reset produce a different second output than two calls with a
reset between them; on a Session instance with all-zero LSTM parameters
and identical inputs the two second outputs are equal, because the
updated state after the first call is again the zero state. -/
theorem c5_counterexample :
    (tinySession.forward [[[1]]] [[1]]
        ((tinySession.forward [[[1]]] [[1]]
          (tinySession.zero_lstm_state 1)).state)).ses_output
      = (tinySession.forward [[[1]]] [[1]]
          (tinySession.zero_lstm_state 1)).ses_output := by
  rw [tinySession_state_fixed]

/-- C5 (amended): zero_lstm_state sets the hidden and cell state to
all-zero [batch_size, d_hidden] matrices; every forward call replaces
the state with the updated (hidden, cell) output of the LSTM cell on the
pooled features; the second of two consecutive forward calls without an
intervening reset is computed from the updated state of the first call
rather than from zeros, so whenever that updated state is again the
zero state the two call patterns produce the same second output (the
outputs need not differ; with all-zero LSTM parameters they
coincide). -/
theorem c5_session_statefulness (self : Session) (batch_size : ℕ)
    (enc_output : Ten3) (src_seq : List (List ℕ)) (st : SessionState) :
    (self.zero_lstm_state batch_size).h
        = List.replicate batch_size (List.replicate self.d_hidden 0) ∧
    (self.zero_lstm_state batch_size).c
        = List.replicate batch_size (List.replicate self.d_hidden 0) ∧
    (self.forward enc_output src_seq st).state
        = self.updatedState enc_output src_seq st ∧
    ((self.forward enc_output src_seq
        (self.zero_lstm_state batch_size)).state
          = self.zero_lstm_state batch_size →
      (self.forward enc_output src_seq
        ((self.forward enc_output src_seq
          (self.zero_lstm_state batch_size)).state)).ses_output
        = (self.forward enc_output src_seq
            (self.zero_lstm_state batch_size)).ses_output) :=
  ⟨rfl, rfl, rfl, fun heq => by rw [heq]⟩

theorem c5_session_statefulness_witness :
    (tinySession.zero_lstm_state 1).h
        = List.replicate 1 (List.replicate 1 0) ∧
    ((tinySession.forward [[[1]]] [[1]]
        (tinySession.zero_lstm_state 1)).state
      = tinySession.zero_lstm_state 1) ∧
    (tinySession.forward [[[1]]] [[1]]
        ((tinySession.forward [[[1]]] [[1]]
          (tinySession.zero_lstm_state 1)).state)).ses_output
      = (tinySession.forward [[[1]]] [[1]]
          (tinySession.zero_lstm_state 1)).ses_output :=
  ⟨(c5_session_statefulness tinySession 1 [[[1]]] [[1]]
      (tinySession.zero_lstm_state 1)).1,
    tinySession_state_fixed,
    (c5_session_statefulness tinySession 1 [[[1]]] [[1]]
      (tinySession.zero_lstm_state 1)).2.2.2 tinySession_state_fixed⟩

theorem dims2_embLookup (weight : Mat) (seq : List (List ℕ)) :
    dims2 (embLookup weight seq) = seq.map List.length := by
  simp [dims2, embLookup]

theorem dims2_add3 (x y : Ten3) :
    dims2 (add3 x y) = List.zipWith min (dims2 x) (dims2 y) := by
  induction x generalizing y with
  | nil => simp [add3, dims2]
  | cons a as ih =>
      cases y with
      | nil => simp [add3, dims2]
      | cons b bs =>
          simpa [add3, dims2, List.length_zipWith] using ih bs

theorem dims2_foldl_dec (layers : List DecLayerFn) (enc npm : Ten3)
    (sm dm : Mask3) (x : Ten3)
    (h : ∀ f ∈ layers, ∀ y e n s d, dims2 (f y e n s d) = dims2 y) :
    dims2 (layers.foldl (fun acc f => f acc enc npm sm dm) x) = dims2 x := by
  induction layers generalizing x with
  | nil => rfl
  | cons f fs ih =>
      rw [List.foldl_cons, ih _ (fun g hg => h g (by simp [hg])),
        h f (by simp)]

theorem dims2_decoder_forward (self : Decoder)
    (tgt_seq tgt_pos src_seq : List (List ℕ)) (enc_output : Ten3)
    (h : ∀ f ∈ self.layer_stack, ∀ y e n s d, dims2 (f y e n s d) = dims2 y) :
    dims2 (self.forward tgt_seq tgt_pos src_seq enc_output)
      = List.zipWith min (tgt_seq.map List.length)
          (tgt_pos.map List.length) := by
  unfold Decoder.forward
  rw [dims2_foldl_dec _ _ _ _ _ _ h, dims2_add3, dims2_embLookup,
    dims2_embLookup]

theorem map_length_map_dropLast (l : List (List ℕ)) :
    (l.map List.dropLast).map List.length
      = (l.map List.length).map (fun n => n - 1) := by
  simp [List.map_map, Function.comp]

theorem map_length_dropLast_uniform (l : List (List ℕ)) (B T : ℕ)
    (hB : l.length = B) (hU : ∀ r ∈ l, r.length = T) :
    (l.map List.dropLast).map List.length = List.replicate B (T - 1) := by
  subst hB
  induction l with
  | nil => simp
  | cons r rs ih =>
      simp only [List.map_cons, List.length_cons, List.replicate_succ,
        List.length_dropLast]
      refine List.cons_eq_cons.mpr ⟨?_, ih (fun s hs => hU s (by simp [hs]))⟩
      rw [hU r (by simp)]

theorem zipWith_min_self (l : List ℕ) : List.zipWith min l l = l := by
  induction l with
  | nil => rfl
  | cons a as ih => simp [ih]

theorem seq2seq_forward_seq_logit (model : Seq2Seq)
    (src_seq src_pos tgt_seq0 tgt_pos0 : List (List ℕ)) (st : SessionState) :
    (model.forward src_seq src_pos tgt_seq0 tgt_pos0 st).seq_logit
      = ((model.forward src_seq src_pos tgt_seq0 tgt_pos0 st).dec_output.map
          (fun mat => mat.map (fun v =>
            (linearNoBias model.tgt_word_prj v).map
              (fun z => z * model.x_logit_scale)))).flatten := rfl

theorem seq2seq_forward_dec_output_mmi (model : Seq2Seq)
    (src_seq src_pos tgt_seq0 tgt_pos0 : List (List ℕ)) (st : SessionState)
    (hmmi : 0 < model.mmi_factor) :
    (model.forward src_seq src_pos tgt_seq0 tgt_pos0 st).dec_output
      = model.decoder.forward
          (tgt_seq0.map List.dropLast ++ tgt_seq0.map List.dropLast)
          (tgt_pos0.map List.dropLast ++ tgt_pos0.map List.dropLast)
          (src_seq ++ src_seq)
          ((model.session.forward (model.encoder.forward src_seq src_pos)
              src_seq st).ses_output
            ++ (model.session.forward (model.encoder.forward src_seq src_pos)
                src_seq st).enc_output) := by
  simp only [Seq2Seq.forward]
  rw [if_pos hmmi]

theorem seq2seq_forward_dec_output_mle (model : Seq2Seq)
    (src_seq src_pos tgt_seq0 tgt_pos0 : List (List ℕ)) (st : SessionState)
    (hmmi : ¬ 0 < model.mmi_factor) :
    (model.forward src_seq src_pos tgt_seq0 tgt_pos0 st).dec_output
      = model.decoder.forward
          (tgt_seq0.map List.dropLast) (tgt_pos0.map List.dropLast) src_seq
          (model.session.forward (model.encoder.forward src_seq src_pos)
            src_seq st).ses_output := by
  simp only [Seq2Seq.forward]
  rw [if_neg hmmi]

theorem length_flatten_proj (w : Mat) (scale : ℝ) (x : Ten3) :
    ((x.map (fun mat => mat.map (fun v =>
      (linearNoBias w v).map (fun z => z * scale)))).flatten).length
      = (dims2 x).sum := by
  rw [List.length_flatten, List.map_map]
  exact congrArg List.sum
    (List.map_congr_left (fun a _ => by simp [Function.comp, dims2]))

/-- C1: in Seq2Seq.forward with target batch [B, T], when the MMI
factor is positive the decoder runs on the batch doubled along the
batch axis, its output has batch dimension 2B, and the flattened logits
have exactly 2 * B * (T - 1) rows; when the factor is zero the decoder
runs on the single batch and the logits have exactly B * (T - 1) rows
(T - 1 because the final target position is dropped). The decoder
layers are library building blocks modelled from the spec as preserving
the batch and length dimensions. -/
theorem c1_mmi_doubling (model : Seq2Seq)
    (src_seq src_pos tgt_seq0 tgt_pos0 : List (List ℕ)) (st : SessionState)
    (B T : ℕ)
    (hB : tgt_seq0.length = B)
    (hU : ∀ r ∈ tgt_seq0, r.length = T)
    (hpos : tgt_pos0.map List.length = tgt_seq0.map List.length)
    (hlayers : ∀ f ∈ model.decoder.layer_stack, ∀ (y e n : Ten3)
      (s d : Mask3), dims2 (f y e n s d) = dims2 y) :
    (0 < model.mmi_factor →
      (model.forward src_seq src_pos tgt_seq0 tgt_pos0 st).dec_output.length
          = 2 * B ∧
      (model.forward src_seq src_pos tgt_seq0 tgt_pos0 st).seq_logit.length
          = 2 * B * (T - 1)) ∧
    (model.mmi_factor = 0 →
      (model.forward src_seq src_pos tgt_seq0 tgt_pos0 st).dec_output.length
          = B ∧
      (model.forward src_seq src_pos tgt_seq0 tgt_pos0 st).seq_logit.length
          = B * (T - 1)) := by
  have h1 : (tgt_seq0.map List.dropLast).map List.length
      = List.replicate B (T - 1) := map_length_dropLast_uniform _ _ _ hB hU
  have h2 : (tgt_pos0.map List.dropLast).map List.length
      = (tgt_seq0.map List.dropLast).map List.length := by
    rw [map_length_map_dropLast, map_length_map_dropLast, hpos]
  constructor
  · intro hmmi
    have hd : dims2
        ((model.forward src_seq src_pos tgt_seq0 tgt_pos0 st).dec_output)
        = List.replicate (2 * B) (T - 1) := by
      rw [seq2seq_forward_dec_output_mmi _ _ _ _ _ _ hmmi,
        dims2_decoder_forward _ _ _ _ _ hlayers,
        List.map_append, List.map_append, h2, h1, zipWith_min_self,
        ← List.replicate_add, two_mul]
    constructor
    · have hlen : (model.forward src_seq src_pos tgt_seq0 tgt_pos0
          st).dec_output.length
          = (dims2 ((model.forward src_seq src_pos tgt_seq0 tgt_pos0
              st).dec_output)).length := by
        simp [dims2]
      rw [hlen, hd, List.length_replicate]
    · rw [seq2seq_forward_seq_logit, length_flatten_proj, hd,
        List.sum_replicate, smul_eq_mul]
  · intro hzero
    have hmle : ¬ 0 < model.mmi_factor := by
      rw [hzero]
      exact lt_irrefl 0
    have hd : dims2
        ((model.forward src_seq src_pos tgt_seq0 tgt_pos0 st).dec_output)
        = List.replicate B (T - 1) := by
      rw [seq2seq_forward_dec_output_mle _ _ _ _ _ _ hmle,
        dims2_decoder_forward _ _ _ _ _ hlayers, h2, h1, zipWith_min_self]
    constructor
    · have hlen : (model.forward src_seq src_pos tgt_seq0 tgt_pos0
          st).dec_output.length
          = (dims2 ((model.forward src_seq src_pos tgt_seq0 tgt_pos0
              st).dec_output)).length := by
        simp [dims2]
      rw [hlen, hd, List.length_replicate]
    · rw [seq2seq_forward_seq_logit, length_flatten_proj, hd,
        List.sum_replicate, smul_eq_mul]

theorem c1_mmi_doubling_witness :
    (0 : ℝ) < mmiSeq2Seq.mmi_factor ∧
    (mmiSeq2Seq.forward [[1]] [[1]] [[2, 3]] [[1, 2]]
        (tinySession.zero_lstm_state 1)).dec_output.length = 2 * 1 ∧
    (mmiSeq2Seq.forward [[1]] [[1]] [[2, 3]] [[1, 2]]
        (tinySession.zero_lstm_state 1)).seq_logit.length = 2 * 1 * (2 - 1) ∧
    mleSeq2Seq.mmi_factor = 0 ∧
    (mleSeq2Seq.forward [[1]] [[1]] [[2, 3]] [[1, 2]]
        (tinySession.zero_lstm_state 1)).dec_output.length = 1 ∧
    (mleSeq2Seq.forward [[1]] [[1]] [[2, 3]] [[1, 2]]
        (tinySession.zero_lstm_state 1)).seq_logit.length = 1 * (2 - 1) := by
  have hlay : ∀ f ∈ bigDecoder.layer_stack, ∀ (y e n : Ten3) (s d : Mask3),
      dims2 (f y e n s d) = dims2 y := by
    intro f hf y e n s d
    rw [List.mem_singleton.mp hf]
  have hmmi : (0 : ℝ) < mmiSeq2Seq.mmi_factor := by
    norm_num [mmiSeq2Seq]
  have hA := c1_mmi_doubling mmiSeq2Seq [[1]] [[1]] [[2, 3]] [[1, 2]]
    (tinySession.zero_lstm_state 1) 1 2 rfl (by simp) rfl hlay
  have hB := c1_mmi_doubling mleSeq2Seq [[1]] [[1]] [[2, 3]] [[1, 2]]
    (tinySession.zero_lstm_state 1) 1 2 rfl (by simp) rfl hlay
  exact ⟨hmmi, (hA.1 hmmi).1, (hA.1 hmmi).2, rfl, (hB.2 rfl).1, (hB.2 rfl).2⟩

theorem flatten_getD_uniform {β : Type} :
    ∀ (l : List (List β)) (n b t : ℕ) (d : β),
      (∀ r ∈ l, r.length = n) → b < l.length → t < n →
      l.flatten.getD (b * n + t) d = (l.getD b []).getD t d
  | [], _, b, _, _, _, hb, _ => by simp at hb
  | r :: rs, n, 0, t, d, hU, _, ht => by
      rw [List.flatten_cons, Nat.zero_mul, Nat.zero_add,
        List.getD_append _ _ _ _ (by rw [hU r (by simp)]; exact ht)]
      rfl
  | r :: rs, n, b + 1, t, d, hU, hb, ht => by
      have hr : r.length = n := hU r (by simp)
      have hidx : (b + 1) * n + t - r.length = b * n + t := by
        rw [hr, Nat.succ_mul]
        omega
      rw [List.flatten_cons,
        List.getD_append_right _ _ _ _ (by rw [hr, Nat.succ_mul]; omega),
        hidx,
        flatten_getD_uniform rs n b t d (fun s hs => hU s (by simp [hs]))
          (by simpa using hb) ht]
      rfl

theorem bigDecoder_layers_preserve_dims2 :
    ∀ f ∈ bigDecoder.layer_stack, ∀ (y e n : Ten3) (s d : Mask3),
      dims2 (f y e n s d) = dims2 y := by
  intro f hf y e n s d
  rw [List.mem_singleton.mp hf]

/-- C2: with mmi_factor = 0, Seq2Seq.forward hands the decoder the
target token and position sequences with their final position dropped,
and returns logits flattened to [B * (T - 1), vocab_size]: row
b * (T - 1) + t is the scaled projection of the decoder output at
batch b, time t, so row order matches the flattened (batch, time)
iteration of the truncated target. The decoder layers are library
building blocks modelled from the spec as preserving the batch and
length dimensions. -/
theorem c2_logits_flattening (model : Seq2Seq)
    (src_seq src_pos tgt_seq0 tgt_pos0 : List (List ℕ)) (st : SessionState)
    (B T : ℕ)
    (hB : tgt_seq0.length = B)
    (hU : ∀ r ∈ tgt_seq0, r.length = T)
    (hpos : tgt_pos0.map List.length = tgt_seq0.map List.length)
    (hlayers : ∀ f ∈ model.decoder.layer_stack, ∀ (y e n : Ten3)
      (s d : Mask3), dims2 (f y e n s d) = dims2 y)
    (hmle : model.mmi_factor = 0) :
    (model.forward src_seq src_pos tgt_seq0 tgt_pos0 st).dec_output
        = model.decoder.forward (tgt_seq0.map List.dropLast)
            (tgt_pos0.map List.dropLast) src_seq
            (model.session.forward (model.encoder.forward src_seq src_pos)
              src_seq st).ses_output ∧
    (model.forward src_seq src_pos tgt_seq0 tgt_pos0 st).seq_logit.length
        = B * (T - 1) ∧
    (∀ row ∈ (model.forward src_seq src_pos tgt_seq0 tgt_pos0 st).seq_logit,
      row.length = model.tgt_word_prj.length) ∧
    (∀ b t, b < B → t < T - 1 →
      (model.forward src_seq src_pos tgt_seq0 tgt_pos0 st).seq_logit.getD
          (b * (T - 1) + t) []
        = (linearNoBias model.tgt_word_prj
            (((model.forward src_seq src_pos tgt_seq0 tgt_pos0
              st).dec_output.getD b []).getD t [])).map
            (fun z => z * model.x_logit_scale)) := by
  have hmle' : ¬ 0 < model.mmi_factor := by
    rw [hmle]
    exact lt_irrefl 0
  have h1 : (tgt_seq0.map List.dropLast).map List.length
      = List.replicate B (T - 1) := map_length_dropLast_uniform _ _ _ hB hU
  have h2 : (tgt_pos0.map List.dropLast).map List.length
      = (tgt_seq0.map List.dropLast).map List.length := by
    rw [map_length_map_dropLast, map_length_map_dropLast, hpos]
  have hd : dims2
      ((model.forward src_seq src_pos tgt_seq0 tgt_pos0 st).dec_output)
      = List.replicate B (T - 1) := by
    rw [seq2seq_forward_dec_output_mle _ _ _ _ _ _ hmle',
      dims2_decoder_forward _ _ _ _ _ hlayers, h2, h1, zipWith_min_self]
  have hlen_dec : (model.forward src_seq src_pos tgt_seq0 tgt_pos0
      st).dec_output.length = B := by
    have hx : (model.forward src_seq src_pos tgt_seq0 tgt_pos0
        st).dec_output.length
        = (dims2 ((model.forward src_seq src_pos tgt_seq0 tgt_pos0
            st).dec_output)).length := by
      simp [dims2]
    rw [hx, hd, List.length_replicate]
  have hrow_len : ∀ mat ∈ (model.forward src_seq src_pos tgt_seq0 tgt_pos0
      st).dec_output, mat.length = T - 1 := by
    intro mat hm
    have hmem : mat.length ∈ dims2 ((model.forward src_seq src_pos tgt_seq0
        tgt_pos0 st).dec_output) := List.mem_map_of_mem List.length hm
    rw [hd] at hmem
    exact List.eq_of_mem_replicate hmem
  refine ⟨seq2seq_forward_dec_output_mle _ _ _ _ _ _ hmle', ?_, ?_, ?_⟩
  · rw [seq2seq_forward_seq_logit, length_flatten_proj, hd,
      List.sum_replicate, smul_eq_mul]
  · intro row hrow
    rw [seq2seq_forward_seq_logit] at hrow
    obtain ⟨mat, hmat, hrowm⟩ := List.mem_flatten.mp hrow
    obtain ⟨mat0, hmat0, rfl⟩ := List.mem_map.mp hmat
    obtain ⟨v, hv, rfl⟩ := List.mem_map.mp hrowm
    simp [linearNoBias]
  · intro b t hb ht
    rw [seq2seq_forward_seq_logit]
    rw [flatten_getD_uniform _ (T - 1) b t []
      (by
        intro mat hmat
        obtain ⟨mat0, hmat0, rfl⟩ := List.mem_map.mp hmat
        simpa using hrow_len mat0 hmat0)
      (by rw [List.length_map, hlen_dec]; exact hb) ht]
    have hmemb : (model.forward src_seq src_pos tgt_seq0 tgt_pos0
        st).dec_output.getD b []
        ∈ (model.forward src_seq src_pos tgt_seq0 tgt_pos0 st).dec_output := by
      rw [List.getD_eq_getElem _ _ (by rw [hlen_dec]; exact hb)]
      exact List.getElem_mem _
    have htb : t < ((model.forward src_seq src_pos tgt_seq0 tgt_pos0
        st).dec_output.getD b []).length := by
      rw [hrow_len _ hmemb]
      exact ht
    rw [getD_mapL _ _ _ [] [] (by rw [hlen_dec]; exact hb)]
    rw [getD_mapL _ _ _ [] [] htb]

theorem c2_logits_flattening_witness :
    mleSeq2Seq.mmi_factor = 0 ∧
    (∀ r ∈ ([[2, 3, 4, 1], [2, 3, 4, 1]] : List (List ℕ)), r.length = 4) ∧
    (mleSeq2Seq.forward [[1, 2, 3, 4, 5], [1, 2, 3, 4, 5]]
        [[1, 2, 3, 4, 5], [1, 2, 3, 4, 5]]
        [[2, 3, 4, 1], [2, 3, 4, 1]] [[1, 2, 3, 4], [1, 2, 3, 4]]
        (tinySession.zero_lstm_state 2)).seq_logit.length = 2 * 3 ∧
    (∀ row ∈ (mleSeq2Seq.forward [[1, 2, 3, 4, 5], [1, 2, 3, 4, 5]]
        [[1, 2, 3, 4, 5], [1, 2, 3, 4, 5]]
        [[2, 3, 4, 1], [2, 3, 4, 1]] [[1, 2, 3, 4], [1, 2, 3, 4]]
        (tinySession.zero_lstm_state 2)).seq_logit,
      row.length = mleSeq2Seq.tgt_word_prj.length) := by
  have h := c2_logits_flattening mleSeq2Seq
    [[1, 2, 3, 4, 5], [1, 2, 3, 4, 5]] [[1, 2, 3, 4, 5], [1, 2, 3, 4, 5]]
    [[2, 3, 4, 1], [2, 3, 4, 1]] [[1, 2, 3, 4], [1, 2, 3, 4]]
    (tinySession.zero_lstm_state 2) 2 4 rfl (by decide) rfl
    bigDecoder_layers_preserve_dims2 rfl
  exact ⟨rfl, by decide, by simpa using h.2.1, h.2.2.1⟩
